/-
Verification of the Finance Calculators service (src/main.py).

The service exposes five pure calculators over floating-point inputs:
simple interest, compound interest, loan amortization payment, savings
future value, and proportional rent splitting.  We embed the Python
float arithmetic as exact real arithmetic (ℝ), Python `**` on the
nonnegative bases of the validated domain as `Real.rpow` (or `zpow`
where the exponent is a Python int), Python division — which raises
`ZeroDivisionError` on a zero denominator — as a checked division in an
`Except` monad, `HTTPException(status_code=400, detail=...)` as an
`invalidArgument` error, Python `int()` truncation toward zero as
`pytrunc`, and Python `round(x, 2)` (round-half-to-even) as `round2`.
Pydantic field constraints become `Valid` predicates on the request
structures.
-/
import Mathlib

/-- An error escaping a calculator: an `HTTPException` with its status
code and detail message, or a `ZeroDivisionError`. -/
inductive CalcError where
  | invalidArgument (status : ℤ) (detail : String)
  | divisionByZero
deriving DecidableEq

/-- Python float division: raises `ZeroDivisionError` when the
denominator is zero, otherwise returns the exact quotient. -/
noncomputable def pydiv (a b : ℝ) : Except CalcError ℝ :=
  if b = 0 then .error .divisionByZero else .ok (a / b)

/-- Python `int()` on a float: truncation toward zero. -/
noncomputable def pytrunc (x : ℝ) : ℤ :=
  if 0 ≤ x then ⌊x⌋ else ⌈x⌉

/-- Round-half-to-even to the nearest integer, as Python `round` does. -/
noncomputable def pyround_half_even (x : ℝ) : ℤ :=
  let n := ⌊x⌋
  if x - n < 1/2 then n
  else if 1/2 < x - n then n + 1
  else if Even n then n else n + 1

/-- Function `round2` from src/main.py: Python `round(x, 2)`, rounding to two
decimal places with ties to even. -/
noncomputable def round2 (x : ℝ) : ℝ :=
  (pyround_half_even (100 * x) : ℝ) / 100

theorem pydiv_ok {b : ℝ} (a : ℝ) (hb : b ≠ 0) : pydiv a b = .ok (a / b) := by
  simp [pydiv, hb]

theorem pydiv_by_zero (a : ℝ) : pydiv a 0 = .error .divisionByZero := by
  simp [pydiv]

/-- Lemma: `round2` is the identity on integers (in particular on every whole
monetary amount appearing in the concrete test vectors). -/
theorem round2_intCast (k : ℤ) : round2 (k : ℝ) = (k : ℝ) := by
  have h100 : (100 : ℝ) * (k : ℝ) = ((100 * k : ℤ) : ℝ) := by push_cast; ring
  unfold round2 pyround_half_even
  rw [h100]
  simp only [Int.floor_intCast, sub_self]
  norm_num

@[simp]
theorem except_bind_ok {α β ε : Type} (x : α) (f : α → Except ε β) :
    (Except.ok x : Except ε α) >>= f = f x := rfl

@[simp]
theorem except_bind_error {α β ε : Type} (e : ε) (f : α → Except ε β) :
    (Except.error e : Except ε α) >>= f = Except.error e := rfl

@[simp]
theorem except_pure_def {α ε : Type} (x : α) :
    (pure x : Except ε α) = Except.ok x := rfl

@[simp]
theorem except_map_ok {α β ε : Type} (f : α → β) (x : α) :
    f <$> (Except.ok x : Except ε α) = Except.ok (f x) := rfl

-- ----------- Request models (the pydantic input schemas) -----------

structure SimpleInterestInput where
  principal : ℝ
  annual_rate_percent : ℝ
  years : ℝ

/-- Schema constraints of `SimpleInterestInput`:
`principal > 0`, `annual_rate_percent ≥ 0`, `years > 0`. -/
def SimpleInterestInput.Valid (p : SimpleInterestInput) : Prop :=
  0 < p.principal ∧ 0 ≤ p.annual_rate_percent ∧ 0 < p.years

structure SimpleInterestOutput where
  principal : ℝ
  interest : ℝ
  total : ℝ

-- ----------- Routes -----------

/-- Handler `calc_simple_interest` from src/main.py.  The only division is by
the constant `100.0`, so the handler cannot raise; we still give it the
`Except` result type shared by all calculators so that totality is a
theorem rather than a modelling assumption. -/
noncomputable def calc_simple_interest (payload : SimpleInterestInput) :
    Except CalcError SimpleInterestOutput := do
  let P := payload.principal
  let r ← pydiv payload.annual_rate_percent 100
  let t := payload.years
  let interest := P * r * t
  let total := P + interest
  pure { principal := round2 P, interest := round2 interest, total := round2 total }

/-- The simple-interest result as the specification states it:
`interest = P·(R/100)·T`, `total = P + interest`, all rounded to
2 decimals. -/
noncomputable def spec_simple_interest (p : SimpleInterestInput) : SimpleInterestOutput :=
  let interest := p.principal * (p.annual_rate_percent / 100) * p.years
  { principal := round2 p.principal
    interest := round2 interest
    total := round2 (p.principal + interest) }

/-- C7: for every valid simple-interest request the handler returns
`{principal = round2 P, interest = round2 (P·(R/100)·T),
total = round2 (P + interest)}` and no error path exists beyond input
validation (it succeeds even without the validity hypothesis, but we
state the claim on the validated domain). -/
theorem simple_interest_correct (p : SimpleInterestInput) (_h : p.Valid) :
    calc_simple_interest p = .ok (spec_simple_interest p) := by
  unfold calc_simple_interest spec_simple_interest
  rw [pydiv_ok _ (by norm_num : (100:ℝ) ≠ 0)]
  rfl

/-- C7 witness: `P = 1000`, `R = 5`, `T = 2` is schema-valid and yields
`interest = 100.00`, `total = 1100.00`. -/
theorem simple_interest_correct_witness :
    SimpleInterestInput.Valid ⟨1000, 5, 2⟩ ∧
      calc_simple_interest ⟨1000, 5, 2⟩ = .ok ⟨1000, 100, 1100⟩ := by
  have hv : SimpleInterestInput.Valid ⟨1000, 5, 2⟩ := by
    refine ⟨by norm_num, by norm_num, by norm_num⟩
  refine ⟨hv, ?_⟩
  rw [simple_interest_correct ⟨1000, 5, 2⟩ hv]
  unfold spec_simple_interest
  norm_num
  refine ⟨?_, ?_, ?_⟩
  · have := round2_intCast 1000
    norm_num at this
    exact this
  · have := round2_intCast 100
    norm_num at this
    exact this
  · have := round2_intCast 1100
    norm_num at this
    exact this

-- ----------- Compound interest -----------

structure CompoundInterestInput where
  principal : ℝ
  annual_rate_percent : ℝ
  times_per_year : ℤ
  years : ℝ
  contribution_per_period : ℝ

/-- Schema constraints of `CompoundInterestInput`: `principal ≥ 0`,
`annual_rate_percent ≥ 0`, `times_per_year ≥ 1` (an int),
`years ≥ 0`, `contribution_per_period ≥ 0`. -/
def CompoundInterestInput.Valid (p : CompoundInterestInput) : Prop :=
  0 ≤ p.principal ∧ 0 ≤ p.annual_rate_percent ∧ 1 ≤ p.times_per_year ∧
    0 ≤ p.years ∧ 0 ≤ p.contribution_per_period

structure CompoundInterestOutput where
  future_value : ℝ
  interest_earned : ℝ
  principal : ℝ
  total_contributions : ℝ

/-- Handler `calc_compound_interest` from src/main.py.  The `n == 0` guard
raises HTTP 400 before any division by `n`; the exponent `n·t` is a
float, embedded as `Real.rpow`. -/
noncomputable def calc_compound_interest (payload : CompoundInterestInput) :
    Except CalcError CompoundInterestOutput := do
  let P := payload.principal
  let r ← pydiv payload.annual_rate_percent 100
  let n : ℝ := payload.times_per_year
  let t := payload.years
  let c := payload.contribution_per_period
  if payload.times_per_year = 0 then
    throw (.invalidArgument 400 "times_per_year must be >= 1")
  else do
    let q1 ← pydiv r n
    let fv_principal := P * (1 + q1) ^ (n * t)
    let fv_contrib ←
      if 0 < c ∧ 0 < r then do
        let q2 ← pydiv r n
        let q3 ← pydiv ((1 + q2) ^ (n * t) - 1) q2
        pure (c * q3)
      else if 0 < c ∧ r = 0 then
        pure (c * n * t)
      else
        pure (0 : ℝ)
    let total := fv_principal + fv_contrib
    let interest_earned := total - (P + c * n * t)
    pure { future_value := round2 total
           interest_earned := round2 interest_earned
           principal := round2 P
           total_contributions := round2 (c * n * t) }

/-- The contribution future value exactly as the specification states
it: `c·(((1+r/n)^(nT) − 1)/(r/n))` when `c > 0` and `r > 0`; `c·n·T`
when `c > 0` and `r = 0`; `0` when `c = 0` (the residual case of the
claim, reached here whenever `c ≤ 0`). -/
noncomputable def spec_fv_contrib (c r n t : ℝ) : ℝ :=
  if 0 < c ∧ 0 < r then c * (((1 + r / n) ^ (n * t) - 1) / (r / n))
  else if 0 < c ∧ r = 0 then c * n * t
  else 0

/-- The compound-interest response as the specification states it, with
`r = R/100`: `futureValue = round2(P·(1+r/n)^(nT) + fvContrib)`,
`interestEarned = round2(total − (P + c·n·T))`,
`totalContributions = round2(c·n·T)`. -/
noncomputable def spec_compound_interest (p : CompoundInterestInput) :
    CompoundInterestOutput :=
  let r := p.annual_rate_percent / 100
  let n : ℝ := p.times_per_year
  let total := p.principal * (1 + r / n) ^ (n * p.years) +
    spec_fv_contrib p.contribution_per_period r n p.years
  { future_value := round2 total
    interest_earned := round2 (total - (p.principal + p.contribution_per_period * n * p.years))
    principal := round2 p.principal
    total_contributions := round2 (p.contribution_per_period * n * p.years) }

/-- C1: every valid compound-interest request succeeds (no guard fires,
no division by zero) and returns exactly the rounded values of the
specification formulas. -/
theorem compound_interest_correct (p : CompoundInterestInput) (h : p.Valid) :
    calc_compound_interest p = .ok (spec_compound_interest p) := by
  obtain ⟨hP, hR, hn, ht, hc⟩ := h
  have hn0 : p.times_per_year ≠ 0 := by omega
  have hnpos : (0:ℝ) < (p.times_per_year : ℝ) := by
    exact_mod_cast (by omega : (0:ℤ) < p.times_per_year)
  have hnR : ((p.times_per_year : ℤ) : ℝ) ≠ 0 := ne_of_gt hnpos
  unfold calc_compound_interest spec_compound_interest spec_fv_contrib
  rw [pydiv_ok _ (by norm_num : (100:ℝ) ≠ 0)]
  simp only [except_bind_ok, if_neg hn0]
  rw [pydiv_ok _ hnR]
  simp only [except_bind_ok]
  by_cases hcr : 0 < p.contribution_per_period ∧ 0 < p.annual_rate_percent / 100
  · have hq : p.annual_rate_percent / 100 / (p.times_per_year : ℝ) ≠ 0 :=
      ne_of_gt (div_pos hcr.2 hnpos)
    rw [if_pos hcr, pydiv_ok _ hq]
    simp only [except_bind_ok, except_pure_def, if_pos hcr]
  · rw [if_neg hcr, if_neg hcr]
    by_cases hcz : 0 < p.contribution_per_period ∧ p.annual_rate_percent / 100 = 0
    · rw [if_pos hcz, if_pos hcz]
      simp only [except_bind_ok, except_pure_def]
    · rw [if_neg hcz, if_neg hcz]
      simp only [except_bind_ok, except_pure_def]

/-- C1 witness: `P = 1000`, `R = 0`, `n = 12`, `T = 2`, `c = 0` is
schema-valid and yields `futureValue = 1000.00`,
`interestEarned = 0.00`, `totalContributions = 0.00`. -/
theorem compound_interest_correct_witness :
    CompoundInterestInput.Valid ⟨1000, 0, 12, 2, 0⟩ ∧
      calc_compound_interest ⟨1000, 0, 12, 2, 0⟩ = .ok ⟨1000, 0, 1000, 0⟩ := by
  have hv : CompoundInterestInput.Valid ⟨1000, 0, 12, 2, 0⟩ :=
    ⟨by norm_num, by norm_num, by norm_num, by norm_num, by norm_num⟩
  refine ⟨hv, ?_⟩
  rw [compound_interest_correct _ hv]
  have h1000 := round2_intCast 1000
  have h0 := round2_intCast 0
  unfold spec_compound_interest spec_fv_contrib
  norm_num [Real.one_rpow] at h1000 h0 ⊢
  exact ⟨h1000, h0, h1000, h0⟩

-- ----------- Loan payment -----------

structure LoanPaymentInput where
  principal : ℝ
  annual_rate_percent : ℝ
  years : ℝ
  payments_per_year : ℤ

/-- Schema constraints of `LoanPaymentInput`: `principal > 0`,
`annual_rate_percent ≥ 0`, `years > 0`, `payments_per_year ≥ 1`. -/
def LoanPaymentInput.Valid (p : LoanPaymentInput) : Prop :=
  0 < p.principal ∧ 0 ≤ p.annual_rate_percent ∧ 0 < p.years ∧
    1 ≤ p.payments_per_year

structure LoanPaymentOutput where
  payment_per_period : ℝ
  number_of_payments : ℤ
  total_paid : ℝ
  total_interest : ℝ

/-- Handler `calc_loan_payment` from src/main.py.  `N = int(m * years)` is the
Python truncation `pytrunc`; the exponent `N` is a Python int, so `**`
is `zpow`; both divisions by `N` (when `r = 0`) and by
`(1+r)^N − 1` (when `r ≠ 0`) raise `ZeroDivisionError` when the
denominator is zero — there is no guard on `N = 0`. -/
noncomputable def calc_loan_payment (payload : LoanPaymentInput) :
    Except CalcError LoanPaymentOutput := do
  let P := payload.principal
  let r_annual ← pydiv payload.annual_rate_percent 100
  let m := payload.payments_per_year
  let years := payload.years
  if m ≤ 0 then
    throw (.invalidArgument 400 "payments_per_year must be >= 1")
  else do
    let r ← pydiv r_annual (m : ℝ)
    let N : ℤ := pytrunc ((m : ℝ) * years)
    let payment ←
      if r = 0 then
        pydiv P (N : ℝ)
      else
        pydiv (P * (r * (1 + r) ^ N)) ((1 + r) ^ N - 1)
    let total_paid := payment * (N : ℝ)
    let total_interest := total_paid - P
    pure { payment_per_period := round2 payment
           number_of_payments := N
           total_paid := round2 total_paid
           total_interest := round2 total_interest }

/-- The loan-payment response as the specification states it:
`r = (R/100)/m`, `N = ⌊m·T⌋`, `payment = P/N` when `r = 0` and
`P·(r·(1+r)^N)/((1+r)^N − 1)` otherwise; `totalPaid = round2(payment·N)`,
`totalInterest = round2(totalPaid − P)`; `numberOfPayments` is the
unrounded integer `N`. -/
noncomputable def spec_loan_payment (p : LoanPaymentInput) : LoanPaymentOutput :=
  let r := p.annual_rate_percent / 100 / (p.payments_per_year : ℝ)
  let N : ℤ := ⌊(p.payments_per_year : ℝ) * p.years⌋
  let payment :=
    if r = 0 then p.principal / (N : ℝ)
    else p.principal * (r * (1 + r) ^ N) / ((1 + r) ^ N - 1)
  { payment_per_period := round2 payment
    number_of_payments := N
    total_paid := round2 (payment * (N : ℝ))
    total_interest := round2 (payment * (N : ℝ) - p.principal) }

theorem pytrunc_eq_floor {x : ℝ} (hx : 0 ≤ x) : pytrunc x = ⌊x⌋ := by
  simp [pytrunc, hx]

/-- C2: every valid loan-payment request whose truncated payment count
`N = ⌊m·T⌋` is at least 1 succeeds and returns exactly the rounded
values of the amortization specification. -/
theorem loan_payment_correct (p : LoanPaymentInput) (h : p.Valid)
    (hN : 1 ≤ ⌊(p.payments_per_year : ℝ) * p.years⌋) :
    calc_loan_payment p = .ok (spec_loan_payment p) := by
  obtain ⟨hP, hR, ht, hm⟩ := h
  have hm0 : ¬ (p.payments_per_year ≤ 0) := by omega
  have hmpos : (0:ℝ) < (p.payments_per_year : ℝ) := by
    exact_mod_cast (by omega : (0:ℤ) < p.payments_per_year)
  have hmR : ((p.payments_per_year : ℤ) : ℝ) ≠ 0 := ne_of_gt hmpos
  have hmt : 0 ≤ (p.payments_per_year : ℝ) * p.years :=
    le_of_lt (mul_pos hmpos ht)
  have hNpos : (0:ℝ) < ((⌊(p.payments_per_year : ℝ) * p.years⌋ : ℤ) : ℝ) := by
    exact_mod_cast (by omega : (0:ℤ) < ⌊(p.payments_per_year : ℝ) * p.years⌋)
  unfold calc_loan_payment spec_loan_payment
  rw [pydiv_ok _ (by norm_num : (100:ℝ) ≠ 0)]
  simp only [except_bind_ok, if_neg hm0]
  rw [pydiv_ok _ hmR]
  simp only [except_bind_ok, pytrunc_eq_floor hmt]
  by_cases hr : p.annual_rate_percent / 100 / (p.payments_per_year : ℝ) = 0
  · rw [if_pos hr, if_pos hr, pydiv_ok _ (ne_of_gt hNpos)]
    simp only [except_bind_ok, except_pure_def]
  · have hrpos : 0 < p.annual_rate_percent / 100 / (p.payments_per_year : ℝ) := by
      rcases lt_or_eq_of_le
          (div_nonneg (div_nonneg hR (by norm_num : (0:ℝ) ≤ 100)) (le_of_lt hmpos)) with h1 | h1
      · exact h1
      · exact absurd h1.symm hr
    have hbase : 1 < 1 + p.annual_rate_percent / 100 / (p.payments_per_year : ℝ) := by
      linarith
    have hpow : 1 < (1 + p.annual_rate_percent / 100 / (p.payments_per_year : ℝ)) ^
        (⌊(p.payments_per_year : ℝ) * p.years⌋) :=
      one_lt_zpow₀ hbase (by omega)
    have hden : (1 + p.annual_rate_percent / 100 / (p.payments_per_year : ℝ)) ^
        (⌊(p.payments_per_year : ℝ) * p.years⌋) - 1 ≠ 0 := by
      intro hcontra
      nlinarith [hpow]
    rw [if_neg hr, if_neg hr, pydiv_ok _ hden]
    simp only [except_bind_ok, except_pure_def]

/-- Evaluate `round2` when the scaled value lies in the lower half of
its floor interval (so rounding truncates). -/
theorem round2_eq_of_lt_half {x : ℝ} {k : ℤ} (h1 : (k:ℝ) ≤ 100 * x)
    (h2 : 100 * x < (k:ℝ) + 1/2) : round2 x = (k:ℝ) / 100 := by
  have hfloor : ⌊(100:ℝ) * x⌋ = k := Int.floor_eq_iff.mpr ⟨h1, by linarith⟩
  unfold round2 pyround_half_even
  simp only [hfloor]
  rw [if_pos (by linarith : (100:ℝ) * x - (k:ℝ) < 1/2)]

/-- C2 witness: `P = 1000`, `R = 0`, `T = 1`, `m = 12` is schema-valid
with `N = 12 ≥ 1` and yields `paymentPerPeriod = round2(1000/12) = 83.33`,
`numberOfPayments = 12`, `totalPaid = 1000.00`, `totalInterest = 0.00`. -/
theorem loan_payment_correct_witness :
    LoanPaymentInput.Valid ⟨1000, 0, 1, 12⟩ ∧
      1 ≤ ⌊(((12:ℤ)) : ℝ) * (1:ℝ)⌋ ∧
      calc_loan_payment ⟨1000, 0, 1, 12⟩ = .ok ⟨8333/100, 12, 1000, 0⟩ := by
  have hfl : ⌊(((12:ℤ)) : ℝ) * (1:ℝ)⌋ = 12 := by
    rw [mul_one, Int.floor_intCast]
  have hv : LoanPaymentInput.Valid ⟨1000, 0, 1, 12⟩ :=
    ⟨by norm_num, by norm_num, by norm_num, by norm_num⟩
  have hN : 1 ≤ ⌊(((⟨1000, 0, 1, 12⟩ : LoanPaymentInput).payments_per_year : ℤ) : ℝ) *
      (⟨1000, 0, 1, 12⟩ : LoanPaymentInput).years⌋ := by
    rw [show ((⟨1000, 0, 1, 12⟩ : LoanPaymentInput).payments_per_year : ℤ) = 12 from rfl]
    rw [show (⟨1000, 0, 1, 12⟩ : LoanPaymentInput).years = 1 from rfl]
    rw [hfl]
    norm_num
  refine ⟨hv, by rw [hfl]; norm_num, ?_⟩
  rw [loan_payment_correct _ hv hN]
  unfold spec_loan_payment
  have hpay : round2 ((250:ℝ)/3) = 8333/100 := by
    have := round2_eq_of_lt_half
      (by norm_num : ((8333:ℤ):ℝ) ≤ 100 * ((250:ℝ)/3))
      (by norm_num : 100 * ((250:ℝ)/3) < ((8333:ℤ):ℝ) + 1/2)
    norm_num at this
    exact this
  have h1000 := round2_intCast 1000
  have h0 := round2_intCast 0
  norm_num [hfl] at h1000 h0 ⊢
  exact ⟨hpay, h1000, h0⟩

/-- C3: the schema-valid loan request `P = 1000`, `R = 0`,
`years = 1/20`, `m = 12` has `N = int(m·years) = int(0.6) = 0` and the
handler divides `P` by zero: the computation raises
`ZeroDivisionError` — no guard rejects `m·years < 1` first. -/
theorem loan_payment_zero_rate_div_by_zero :
    LoanPaymentInput.Valid ⟨1000, 0, 1/20, 12⟩ ∧
      pytrunc (((12:ℤ) : ℝ) * (1/20)) = 0 ∧
      calc_loan_payment ⟨1000, 0, 1/20, 12⟩ = .error .divisionByZero := by
  have hfl : pytrunc (((12:ℤ) : ℝ) * (1/20)) = 0 := by
    rw [pytrunc_eq_floor (by norm_num)]
    rw [show ((12:ℤ) : ℝ) * (1/20) = (3:ℝ)/5 by norm_num]
    rw [Int.floor_eq_iff]
    constructor
    · norm_num
    · norm_num
  refine ⟨⟨by norm_num, by norm_num, by norm_num, by norm_num⟩, hfl, ?_⟩
  unfold calc_loan_payment
  dsimp only
  rw [pydiv_ok _ (by norm_num : (100:ℝ) ≠ 0)]
  simp only [except_bind_ok]
  rw [if_neg (by norm_num : ¬((12:ℤ) ≤ 0))]
  rw [pydiv_ok _ (by norm_num : (((12:ℤ)):ℝ) ≠ 0)]
  simp only [except_bind_ok]
  rw [if_pos (by norm_num : (0:ℝ)/100/((12:ℤ):ℝ) = 0)]
  rw [hfl]
  rw [show (((0:ℤ)):ℝ) = 0 from Int.cast_zero, pydiv_by_zero]
  simp only [except_bind_error]

/-- C10: the schema-valid loan request `P = 1000`, `R = 12`,
`years = 1/20`, `m = 12` has period rate `r = 0.01 > 0` and
`N = int(0.6) = 0`, so the amortization denominator
`(1+r)^N − 1 = 0` and the handler raises `ZeroDivisionError`: the
`N = 0` division-by-zero failure is not limited to the `r = 0` case. -/
theorem loan_payment_pos_rate_div_by_zero :
    LoanPaymentInput.Valid ⟨1000, 12, 1/20, 12⟩ ∧
      (0:ℝ) < 12/100/((12:ℤ):ℝ) ∧
      pytrunc (((12:ℤ) : ℝ) * (1/20)) = 0 ∧
      calc_loan_payment ⟨1000, 12, 1/20, 12⟩ = .error .divisionByZero := by
  have hfl : pytrunc (((12:ℤ) : ℝ) * (1/20)) = 0 := by
    rw [pytrunc_eq_floor (by norm_num)]
    rw [show ((12:ℤ) : ℝ) * (1/20) = (3:ℝ)/5 by norm_num]
    rw [Int.floor_eq_iff]
    constructor
    · norm_num
    · norm_num
  refine ⟨⟨by norm_num, by norm_num, by norm_num, by norm_num⟩, by norm_num, hfl, ?_⟩
  unfold calc_loan_payment
  dsimp only
  rw [pydiv_ok _ (by norm_num : (100:ℝ) ≠ 0)]
  simp only [except_bind_ok]
  rw [if_neg (by norm_num : ¬((12:ℤ) ≤ 0))]
  rw [pydiv_ok _ (by norm_num : (((12:ℤ)):ℝ) ≠ 0)]
  simp only [except_bind_ok]
  rw [if_neg (by norm_num : ¬((12:ℝ)/100/((12:ℤ):ℝ) = 0))]
  rw [hfl]
  rw [zpow_zero, sub_self, pydiv_by_zero]
  simp only [except_bind_error]

-- ----------- Savings future value -----------

structure SavingsFutureValueInput where
  present_value : ℝ
  contribution_per_period : ℝ
  annual_rate_percent : ℝ
  years : ℝ
  times_per_year : ℤ

/-- Schema constraints of `SavingsFutureValueInput`:
`present_value ≥ 0`, `contribution_per_period ≥ 0`,
`annual_rate_percent ≥ 0`, `years ≥ 0`, `times_per_year ≥ 1`. -/
def SavingsFutureValueInput.Valid (p : SavingsFutureValueInput) : Prop :=
  0 ≤ p.present_value ∧ 0 ≤ p.contribution_per_period ∧
    0 ≤ p.annual_rate_percent ∧ 0 ≤ p.years ∧ 1 ≤ p.times_per_year

structure SavingsFutureValueOutput where
  future_value : ℝ
  interest_earned : ℝ
  total_contributions : ℝ

/-- Handler `calc_savings_fv` from src/main.py.  Note the order of the source:
`fv_pv` is a conditional expression guarded by `n > 0` (so it never
divides by zero), and only afterwards does the `n == 0` guard raise
HTTP 400. -/
noncomputable def calc_savings_fv (payload : SavingsFutureValueInput) :
    Except CalcError SavingsFutureValueOutput := do
  let PV := payload.present_value
  let c := payload.contribution_per_period
  let r ← pydiv payload.annual_rate_percent 100
  let n := payload.times_per_year
  let t := payload.years
  let fv_pv ←
    if 0 < n then do
      let q ← pydiv r (n : ℝ)
      pure (PV * (1 + q) ^ ((n : ℝ) * t))
    else
      pure PV
  if n = 0 then
    throw (.invalidArgument 400 "times_per_year must be >= 1")
  else do
    let fv_contrib ←
      if r = 0 then
        pure (c * (n : ℝ) * t)
      else do
        let q ← pydiv r (n : ℝ)
        let w ← pydiv ((1 + q) ^ ((n : ℝ) * t) - 1) q
        pure (c * w)
    let fv_total := fv_pv + fv_contrib
    let total_contributions := c * (n : ℝ) * t
    let interest_earned := fv_total - (PV + total_contributions)
    pure { future_value := round2 fv_total
           interest_earned := round2 interest_earned
           total_contributions := round2 total_contributions }

/-- The savings-future-value response as the specification states it,
with `r = R/100`: `fvPV = PV·(1+r/n)^(nT)`; `fvContrib = c·n·T` when
`r = 0` and `c·(((1+r/n)^(nT) − 1)/(r/n))` otherwise;
`futureValue = round2(fvPV + fvContrib)`,
`totalContributions = round2(c·n·T)`,
`interestEarned = round2(fvTotal − (PV + c·n·T))`. -/
noncomputable def spec_savings_fv (p : SavingsFutureValueInput) :
    SavingsFutureValueOutput :=
  let r := p.annual_rate_percent / 100
  let n : ℝ := p.times_per_year
  let fv_contrib :=
    if r = 0 then p.contribution_per_period * n * p.years
    else p.contribution_per_period * (((1 + r / n) ^ (n * p.years) - 1) / (r / n))
  let fv_total := p.present_value * (1 + r / n) ^ (n * p.years) + fv_contrib
  { future_value := round2 fv_total
    interest_earned :=
      round2 (fv_total - (p.present_value + p.contribution_per_period * n * p.years))
    total_contributions := round2 (p.contribution_per_period * n * p.years) }

/-- C4: every valid savings-future-value request succeeds and returns
exactly the rounded values of the specification formulas. -/
theorem savings_fv_correct (p : SavingsFutureValueInput) (h : p.Valid) :
    calc_savings_fv p = .ok (spec_savings_fv p) := by
  obtain ⟨hPV, hc, hR, ht, hn⟩ := h
  have hn0 : p.times_per_year ≠ 0 := by omega
  have hnlt : 0 < p.times_per_year := by omega
  have hnpos : (0:ℝ) < (p.times_per_year : ℝ) := by
    exact_mod_cast hnlt
  have hnR : ((p.times_per_year : ℤ) : ℝ) ≠ 0 := ne_of_gt hnpos
  unfold calc_savings_fv spec_savings_fv
  rw [pydiv_ok _ (by norm_num : (100:ℝ) ≠ 0)]
  simp only [except_bind_ok]
  rw [if_pos hnlt, pydiv_ok _ hnR]
  simp only [except_bind_ok, except_pure_def, if_neg hn0]
  by_cases hr : p.annual_rate_percent / 100 = 0
  · rw [if_pos hr, if_pos hr]
  · have hrpos : 0 < p.annual_rate_percent / 100 := by
      rcases lt_or_eq_of_le (div_nonneg hR (by norm_num : (0:ℝ) ≤ 100)) with h1 | h1
      · exact h1
      · exact absurd h1.symm hr
    have hq : p.annual_rate_percent / 100 / (p.times_per_year : ℝ) ≠ 0 :=
      ne_of_gt (div_pos hrpos hnpos)
    rw [if_neg hr, if_neg hr, pydiv_ok _ hq]
    simp only [except_bind_ok, except_pure_def]

/-- C4 witness: `PV = 0`, `c = 100`, `R = 0`, `T = 1`, `n = 12` is
schema-valid and yields `futureValue = 1200.00` exactly, with
`interestEarned = 0.00` and `totalContributions = 1200.00`. -/
theorem savings_fv_correct_witness :
    SavingsFutureValueInput.Valid ⟨0, 100, 0, 1, 12⟩ ∧
      calc_savings_fv ⟨0, 100, 0, 1, 12⟩ = .ok ⟨1200, 0, 1200⟩ := by
  have hv : SavingsFutureValueInput.Valid ⟨0, 100, 0, 1, 12⟩ :=
    ⟨by norm_num, by norm_num, by norm_num, by norm_num, by norm_num⟩
  refine ⟨hv, ?_⟩
  rw [savings_fv_correct _ hv]
  have h1200 := round2_intCast 1200
  have h0 := round2_intCast 0
  unfold spec_savings_fv
  norm_num [Real.one_rpow] at h1200 h0 ⊢
  exact ⟨h1200, h0, h1200⟩

-- ----------- Rent split -----------

structure RoommateShare where
  name : String
  weight : ℝ

structure RentSplitInput where
  total_rent : ℝ
  total_utilities : ℝ
  roommates : List RoommateShare

/-- Schema constraints of `RentSplitInput`: `total_rent ≥ 0`,
`total_utilities ≥ 0`, at least one roommate, and `weight > 0` on
every `RoommateShare`. -/
def RentSplitInput.Valid (p : RentSplitInput) : Prop :=
  0 ≤ p.total_rent ∧ 0 ≤ p.total_utilities ∧ p.roommates ≠ [] ∧
    ∀ r ∈ p.roommates, 0 < r.weight

/-- The expression `sum(r.weight for r in payload.roommates)` from src/main.py. -/
def RentSplitInput.totalWeight (p : RentSplitInput) : ℝ :=
  (p.roommates.map (fun r => r.weight)).sum

structure RoommateShareOutput where
  name : String
  weight : ℝ
  amount : ℝ

structure RentSplitOutput where
  total : ℝ
  roommates : List RoommateShareOutput

/-- The `for r in payload.roommates` loop of `calc_rent_split`: each
iteration divides by `total_weight` (raising `ZeroDivisionError` if it
is zero) and appends `{name, weight, amount}` in input order. -/
noncomputable def rentShares (total total_weight : ℝ) :
    List RoommateShare → Except CalcError (List RoommateShareOutput)
  | [] => pure []
  | r :: rs => do
    let q ← pydiv r.weight total_weight
    let rest ← rentShares total total_weight rs
    pure (⟨r.name, r.weight, round2 (total * q)⟩ :: rest)

/-- Handler `calc_rent_split` from src/main.py. -/
noncomputable def calc_rent_split (payload : RentSplitInput) :
    Except CalcError RentSplitOutput := do
  let total := payload.total_rent + payload.total_utilities
  let total_weight := payload.totalWeight
  if total_weight ≤ 0 then
    throw (.invalidArgument 400 "Sum of weights must be > 0")
  else do
    let shares ← rentShares total total_weight payload.roommates
    pure { total := round2 total, roommates := shares }

theorem rentShares_ok (total : ℝ) {tw : ℝ} (htw : tw ≠ 0) (l : List RoommateShare) :
    rentShares total tw l =
      .ok (l.map fun r => ⟨r.name, r.weight, round2 (total * (r.weight / tw))⟩) := by
  induction l with
  | nil => rfl
  | cons r rs ih =>
    unfold rentShares
    rw [pydiv_ok _ htw]
    simp only [except_bind_ok]
    rw [ih]
    simp only [except_bind_ok, except_pure_def, List.map_cons]

/-- The sum of the weights of a non-empty roommate list with all
weights positive is positive. -/
theorem totalWeight_pos {p : RentSplitInput} (hne : p.roommates ≠ [])
    (hw : ∀ r ∈ p.roommates, 0 < r.weight) : 0 < p.totalWeight := by
  unfold RentSplitInput.totalWeight
  apply List.sum_pos
  · intro x hx
    obtain ⟨r, hr, rfl⟩ := List.mem_map.mp hx
    exact hw r hr
  · intro hcontra
    exact hne (List.map_eq_nil_iff.mp hcontra)

/-- C5: every valid rent-split request succeeds; the returned total is
`round2(totalRent + totalUtilities)` and the returned roommates are the
input roommates in input order, each with its weight echoed unrounded
and `amount = round2(total · (weight / totalWeight))`. -/
theorem rent_split_correct (p : RentSplitInput) (h : p.Valid) :
    calc_rent_split p = .ok
      { total := round2 (p.total_rent + p.total_utilities)
        roommates := p.roommates.map fun r =>
          ⟨r.name, r.weight,
            round2 ((p.total_rent + p.total_utilities) * (r.weight / p.totalWeight))⟩ } := by
  obtain ⟨hr, hu, hne, hw⟩ := h
  have hpos : 0 < p.totalWeight := totalWeight_pos hne hw
  unfold calc_rent_split
  rw [if_neg (not_le.mpr hpos)]
  rw [rentShares_ok _ (ne_of_gt hpos)]
  simp only [except_bind_ok, except_pure_def]

/-- C5 witness: rent 1000, utilities 0, roommates `A` and `B` with equal
weight 1: the total is 1000.00, the output preserves input order, each
weight is echoed, and each amount is 500.00. -/
theorem rent_split_correct_witness :
    RentSplitInput.Valid ⟨1000, 0, [⟨"A", 1⟩, ⟨"B", 1⟩]⟩ ∧
      calc_rent_split ⟨1000, 0, [⟨"A", 1⟩, ⟨"B", 1⟩]⟩ =
        .ok ⟨1000, [⟨"A", 1, 500⟩, ⟨"B", 1, 500⟩]⟩ := by
  have hv : RentSplitInput.Valid ⟨1000, 0, [⟨"A", 1⟩, ⟨"B", 1⟩]⟩ := by
    refine ⟨by norm_num, by norm_num, by simp, ?_⟩
    intro r hr
    simp only [List.mem_cons, List.mem_singleton] at hr
    rcases hr with h | h | h
    · rw [h]; norm_num
    · rw [h]; norm_num
    · exact absurd h (List.not_mem_nil r)
  refine ⟨hv, ?_⟩
  rw [rent_split_correct _ hv]
  have htw : RentSplitInput.totalWeight ⟨1000, 0, [⟨"A", 1⟩, ⟨"B", 1⟩]⟩ = 2 := by
    unfold RentSplitInput.totalWeight
    simp
    norm_num
  have h1000 := round2_intCast 1000
  have h500 := round2_intCast 500
  norm_num [htw] at h1000 h500 ⊢
  exact ⟨h1000, h500⟩

/-- C9: the rent-split handler fails with the HTTP 400 InvalidArgument
error `Sum of weights must be > 0` whenever the summed weight is ≤ 0,
and for every schema-valid request (non-empty roommates, all weights
positive) the summed weight is positive, so the branch is unreachable
after validation. -/
theorem rent_split_weight_guard :
    (∀ p : RentSplitInput, p.totalWeight ≤ 0 →
      calc_rent_split p = .error (.invalidArgument 400 "Sum of weights must be > 0")) ∧
    (∀ p : RentSplitInput, p.Valid → 0 < p.totalWeight) := by
  constructor
  · intro p hple
    unfold calc_rent_split
    rw [if_pos hple]
    rfl
  · intro p hv
    exact totalWeight_pos hv.2.2.1 hv.2.2.2

/-- C9 witness: the (schema-invalid) empty roommate list has summed
weight 0 and hits the InvalidArgument branch, while the schema-valid
single-roommate request has positive summed weight. -/
theorem rent_split_weight_guard_witness :
    (RentSplitInput.totalWeight ⟨0, 0, []⟩ ≤ 0 ∧
      calc_rent_split ⟨0, 0, []⟩ =
        .error (.invalidArgument 400 "Sum of weights must be > 0")) ∧
    (RentSplitInput.Valid ⟨100, 0, [⟨"A", 1⟩]⟩ ∧
      0 < RentSplitInput.totalWeight ⟨100, 0, [⟨"A", 1⟩]⟩) := by
  have h1 : RentSplitInput.totalWeight ⟨0, 0, []⟩ ≤ 0 := by
    unfold RentSplitInput.totalWeight
    simp
  have hv : RentSplitInput.Valid ⟨100, 0, [⟨"A", 1⟩]⟩ := by
    refine ⟨by norm_num, by norm_num, by simp, ?_⟩
    intro r hr
    simp only [List.mem_singleton] at hr
    rw [hr]
    norm_num
  exact ⟨⟨h1, rent_split_weight_guard.1 _ h1⟩, hv, rent_split_weight_guard.2 _ hv⟩

-- ----------- Guard behaviour and purity -----------

/-- C6: any compound-interest or savings-future-value request whose
`times_per_year` is 0 reaches the formula layer and fails with the
HTTP 400 InvalidArgument error `times_per_year must be >= 1`; no
computed (infinite/NaN) result is returned. -/
theorem times_per_year_zero_rejected :
    (∀ p : CompoundInterestInput, p.times_per_year = 0 →
      calc_compound_interest p =
        .error (.invalidArgument 400 "times_per_year must be >= 1")) ∧
    (∀ p : SavingsFutureValueInput, p.times_per_year = 0 →
      calc_savings_fv p =
        .error (.invalidArgument 400 "times_per_year must be >= 1")) := by
  constructor
  · intro p hp
    unfold calc_compound_interest
    rw [pydiv_ok _ (by norm_num : (100:ℝ) ≠ 0)]
    simp only [except_bind_ok]
    rw [if_pos hp]
    rfl
  · intro p hp
    unfold calc_savings_fv
    rw [pydiv_ok _ (by norm_num : (100:ℝ) ≠ 0)]
    simp only [except_bind_ok]
    rw [hp]
    rw [if_neg (lt_irrefl 0)]
    simp only [except_bind_ok, except_pure_def]
    rw [if_pos trivial]
    rfl

/-- C6 witness: the all-zero compound-interest and savings requests
(with `times_per_year = 0`) both yield the InvalidArgument error. -/
theorem times_per_year_zero_rejected_witness :
    calc_compound_interest ⟨0, 0, 0, 0, 0⟩ =
        .error (.invalidArgument 400 "times_per_year must be >= 1") ∧
      calc_savings_fv ⟨0, 0, 0, 0, 0⟩ =
        .error (.invalidArgument 400 "times_per_year must be >= 1") :=
  ⟨times_per_year_zero_rejected.1 _ rfl, times_per_year_zero_rejected.2 _ rfl⟩

/-- C8: every calculator is deterministic and side-effect-free: it is a
pure function of the request alone, so two runs on identical inputs
return identical outputs — the embedding threads no state, and the
source handlers read no mutable globals. -/
theorem calculators_deterministic :
    (∀ p q : SimpleInterestInput, p = q →
      calc_simple_interest p = calc_simple_interest q) ∧
    (∀ p q : CompoundInterestInput, p = q →
      calc_compound_interest p = calc_compound_interest q) ∧
    (∀ p q : LoanPaymentInput, p = q →
      calc_loan_payment p = calc_loan_payment q) ∧
    (∀ p q : SavingsFutureValueInput, p = q →
      calc_savings_fv p = calc_savings_fv q) ∧
    (∀ p q : RentSplitInput, p = q →
      calc_rent_split p = calc_rent_split q) :=
  ⟨fun _ _ h => by rw [h], fun _ _ h => by rw [h], fun _ _ h => by rw [h],
   fun _ _ h => by rw [h], fun _ _ h => by rw [h]⟩

/-- C8 witness: two runs of each calculator on an identical concrete
request agree. -/
theorem calculators_deterministic_witness :
    calc_simple_interest ⟨1000, 5, 2⟩ = calc_simple_interest ⟨1000, 5, 2⟩ ∧
      calc_compound_interest ⟨1000, 0, 12, 2, 0⟩ =
        calc_compound_interest ⟨1000, 0, 12, 2, 0⟩ ∧
      calc_loan_payment ⟨1000, 0, 1, 12⟩ = calc_loan_payment ⟨1000, 0, 1, 12⟩ ∧
      calc_savings_fv ⟨0, 100, 0, 1, 12⟩ = calc_savings_fv ⟨0, 100, 0, 1, 12⟩ ∧
      calc_rent_split ⟨1000, 0, [⟨"A", 1⟩, ⟨"B", 1⟩]⟩ =
        calc_rent_split ⟨1000, 0, [⟨"A", 1⟩, ⟨"B", 1⟩]⟩ :=
  ⟨calculators_deterministic.1 _ _ rfl, calculators_deterministic.2.1 _ _ rfl,
   calculators_deterministic.2.2.1 _ _ rfl, calculators_deterministic.2.2.2.1 _ _ rfl,
   calculators_deterministic.2.2.2.2 _ _ rfl⟩
